import Mathlib

/-!
Shallow embedding of the Soul Builder core (session state machine and
document renderer) and proofs of the specified properties.

The source keeps a global `Map<string, SoulState>`; every operation first
looks its session up by id and then works on that single entry.  We embed
each operation as a function on the lookup result `Option SoulState`
(together with the returned `ToolResult` and, for mutating operations, the
updated entry).  Timestamps (`Date.now()` / `createdAt.getTime()`) are
modelled as natural-number milliseconds.
-/

namespace SoulBuilder

/-- The six answer slots (`keyof SoulAnswers` in the source). -/
inductive Field where
  | name
  | personality
  | coreValues
  | tone
  | backstory
  | signature
deriving DecidableEq, Repr

/-- `Partial<SoulAnswers>`: each slot is absent (`undefined`) or a string. -/
structure Answers where
  name : Option String := none
  personality : Option String := none
  coreValues : Option String := none
  tone : Option String := none
  backstory : Option String := none
  signature : Option String := none
deriving DecidableEq, Repr

/-- Read the slot named by a field key (`answers[field]`). -/
def Answers.get (a : Answers) : Field → Option String
  | .name => a.name
  | .personality => a.personality
  | .coreValues => a.coreValues
  | .tone => a.tone
  | .backstory => a.backstory
  | .signature => a.signature

/-- Write the slot named by a field key (`answers[field] = v`). -/
def Answers.set (a : Answers) : Field → String → Answers
  | .name, v => { a with name := some v }
  | .personality, v => { a with personality := some v }
  | .coreValues, v => { a with coreValues := some v }
  | .tone, v => { a with tone := some v }
  | .backstory, v => { a with backstory := some v }
  | .signature, v => { a with signature := some v }

/-- One session (`SoulState` in the source). -/
structure SoulState where
  step : Nat
  answers : Answers
  createdAt : Nat
deriving DecidableEq, Repr

/-- One entry of the static question list. -/
structure SoulQuestion where
  step : Nat
  field : Field
  question : String
  optional : Bool
deriving DecidableEq, Repr

/-- The fixed question list from `types.ts`. -/
def SOUL_QUESTIONS : List SoulQuestion :=
  [ { step := 1, field := .name,
      question := "Wie soll dein Agent heißen?", optional := false },
    { step := 2, field := .personality,
      question := "Beschreibe die Persönlichkeit in 3 Adjektiven (z.B. warm, direkt, neugierig)",
      optional := false },
    { step := 3, field := .coreValues,
      question := "Was sind 2-3 Kernwerte deines Agenten?", optional := false },
    { step := 4, field := .tone,
      question := "Kommunikationsstil: formell / locker-professionell / casual / technisch-präzise",
      optional := false },
    { step := 5, field := .backstory,
      question := "Gib deinem Agenten eine Herkunft — 1-2 Sätze.", optional := false },
    { step := 6, field := .signature,
      question := "Ein typischer Erkennungs-Satz deines Agenten? (oder \"skip\" zum Überspringen)",
      optional := true } ]

/-- `TOTAL_STEPS = SOUL_QUESTIONS.length`. -/
def TOTAL_STEPS : Nat := SOUL_QUESTIONS.length

/-- One hour, in milliseconds (`SESSION_EXPIRY_MS`). -/
def SESSION_EXPIRY_MS : Nat := 60 * 60 * 1000

/-- The uniform result shape (`ToolResult`), optional fields as `Option`. -/
structure ToolResult where
  success : Bool
  message : String
  nextQuestion : Option String := none
  currentStep : Option Nat := none
  totalSteps : Option Nat := none
  isComplete : Option Bool := none
  soulMd : Option String := none
deriving DecidableEq, Repr

/-- JS `String.prototype.trim`: drop leading and trailing whitespace.
Defined structurally over the character list so that it evaluates inside
the kernel. -/
def jsTrim (s : String) : String :=
  ⟨((s.data.dropWhile Char.isWhitespace).reverse.dropWhile Char.isWhitespace).reverse⟩

/-- JS `String.prototype.toLowerCase`, restricted to the ASCII range the
skip sentinel lives in. -/
def jsToLower (s : String) : String :=
  ⟨s.data.map Char.toLower⟩

/-- JS template interpolation of a possibly-absent field: `undefined`
prints as the text "undefined". -/
def jsStr (o : Option String) : String := o.getD "undefined"

/-- JS truthiness of a possibly-absent string: `undefined` and `""` are
falsy, every other string truthy. -/
def truthy : Option String → Bool
  | none => false
  | some s => !(s == "")

/-- `generateSoulMd`: pure rendering of the document from the answer map
(the source casts `Partial<SoulAnswers>` to `SoulAnswers`; absent fields
would interpolate as "undefined"). -/
def generateSoulMd (answers : Answers) : String :=
  let signatureSection :=
    if truthy answers.signature then "## Signature\n" ++ jsStr answers.signature
    else "## Signature\n*Keine Signatur definiert*"
  "# SOUL.md — " ++ jsStr answers.name
    ++ "\n\n## Identity\n**Name:** " ++ jsStr answers.name
    ++ "\n**Personality:** " ++ jsStr answers.personality
    ++ "\n**Core Values:** " ++ jsStr answers.coreValues
    ++ "\n\n## Communication Style\n**Tone:** " ++ jsStr answers.tone
    ++ "\n\n## Backstory\n" ++ jsStr answers.backstory
    ++ "\n\n" ++ signatureSection
    ++ "\n\n---\n*Generated by Soul Builder — ag3nt.id*\n*Give your agent an identity.*\n"

/-- `startSoulBuilder`: takes the store lookup for the session id and the
current time; returns the tool result and the (possibly newly created)
stored entry. -/
def startSoulBuilder (s : Option SoulState) (now : Nat) : ToolResult × Option SoulState :=
  match s with
  | some existing =>
    let currentQuestion := SOUL_QUESTIONS[existing.step - 1]?
    ({ success := true,
       message := s!"Session bereits aktiv. Wir sind bei Frage {existing.step}/{TOTAL_STEPS}.",
       nextQuestion := currentQuestion.map SoulQuestion.question,
       currentStep := some existing.step,
       totalSteps := some TOTAL_STEPS,
       isComplete := some (decide (existing.step > TOTAL_STEPS)) },
     some existing)
  | none =>
    let fresh : SoulState := { step := 1, answers := {}, createdAt := now }
    let firstQuestion := SOUL_QUESTIONS.get ⟨0, by decide⟩
    ({ success := true,
       message := s!"Willkommen beim Soul Builder! 🎭\n\nIch helfe dir, die Identität deines KI-Agenten zu definieren. In {TOTAL_STEPS} kurzen Fragen erstellen wir gemeinsam ein SOUL.md — das Herzstück deines Agenten.\n\nDie Kernthese von ag3nt.id: \"Ein Agent ohne Soul ist nur ein Werkzeug.\"\n\nLass uns starten!",
       nextQuestion := some firstQuestion.question,
       currentStep := some 1,
       totalSteps := some TOTAL_STEPS,
       isComplete := some false },
     some fresh)

/-- Shared tail of `answerQuestion` after an answer was stored: advance the
step and report either completion or the next question.  The `none` branch
of the lookup mirrors the JS `TypeError` that an out-of-range index would
raise; it is unreachable while the step invariant holds. -/
def afterStore (state : SoulState) : ToolResult × Option SoulState :=
  let state : SoulState := { state with step := state.step + 1 }
  if state.step > TOTAL_STEPS then
    let n := jsStr state.answers.name
    ({ success := true,
       message := s!"Perfekt! Alle {TOTAL_STEPS} Fragen beantwortet. Dein Agent \"{n}\" ist bereit!\n\nNutze jetzt generate_soul um dein SOUL.md zu erstellen.",
       isComplete := some true,
       currentStep := some state.step,
       totalSteps := some TOTAL_STEPS },
     some state)
  else
    match SOUL_QUESTIONS[state.step - 1]? with
    | none =>
      ({ success := false, message := "TypeError: nextQuestion is undefined" }, some state)
    | some nextQuestion =>
      ({ success := true,
         message := s!"Antwort gespeichert! Weiter zu Frage {state.step}/{TOTAL_STEPS}:",
         nextQuestion := some nextQuestion.question,
         currentStep := some state.step,
         totalSteps := some TOTAL_STEPS,
         isComplete := some false },
       some state)

/-- `answerQuestion`: validate, store and advance.  Takes the store lookup
for the session id; returns the tool result and the updated entry. -/
def answerQuestion (s : Option SoulState) (answer : String) : ToolResult × Option SoulState :=
  match s with
  | none =>
    ({ success := false,
       message := "Keine aktive Session gefunden. Bitte starte mit start_soul_builder." },
     none)
  | some state =>
    if state.step > TOTAL_STEPS then
      ({ success := true,
         message := "Alle Fragen beantwortet! Nutze generate_soul um dein SOUL.md zu erstellen.",
         isComplete := some true,
         currentStep := some state.step,
         totalSteps := some TOTAL_STEPS },
       some state)
    else
      match SOUL_QUESTIONS[state.step - 1]? with
      | none =>
        ({ success := false, message := "TypeError: currentQuestion is undefined" }, some state)
      | some currentQuestion =>
        let trimmedAnswer := jsTrim answer
        if currentQuestion.optional && (jsToLower trimmedAnswer == "skip") then
          afterStore { state with answers := state.answers.set currentQuestion.field "" }
        else if (trimmedAnswer == "") && !currentQuestion.optional then
          ({ success := false,
             message := "Diese Frage ist erforderlich. Bitte beantworte: " ++ currentQuestion.question,
             currentStep := some state.step,
             totalSteps := some TOTAL_STEPS },
           some state)
        else
          afterStore { state with answers := state.answers.set currentQuestion.field trimmedAnswer }

/-- `generateSoul`: render the document once the session is complete. -/
def generateSoul (s : Option SoulState) : ToolResult :=
  match s with
  | none =>
    { success := false,
      message := "Keine aktive Session gefunden. Bitte starte mit start_soul_builder." }
  | some state =>
    if state.step ≤ TOTAL_STEPS then
      let remaining := TOTAL_STEPS - state.step + 1
      { success := false,
        message := s!"Noch {remaining} Frage(n) offen. Bitte beantworte alle Fragen zuerst.",
        currentStep := some state.step,
        totalSteps := some TOTAL_STEPS }
    else
      let soulMd := generateSoulMd state.answers
      let n := jsStr state.answers.name
      { success := true,
        message := s!"SOUL.md für \"{n}\" erfolgreich generiert!",
        soulMd := some soulMd,
        isComplete := some true }

/-- `exportSoul`: render the document as plain text for copying. -/
def exportSoul (s : Option SoulState) : ToolResult :=
  match s with
  | none =>
    { success := false,
      message := "Keine aktive Session gefunden. Bitte starte mit start_soul_builder." }
  | some state =>
    if state.step ≤ TOTAL_STEPS then
      { success := false,
        message := "Soul noch nicht vollständig. Bitte beantworte alle Fragen und nutze generate_soul." }
    else
      { success := true,
        message := "Hier ist dein SOUL.md zum Kopieren:",
        soulMd := some (generateSoulMd state.answers) }

/-- One step of the periodic expiry sweep, restricted to a single entry:
delete it when its age exceeds the expiry window. -/
def sweepOne (now : Nat) (s : Option SoulState) : Option SoulState :=
  match s with
  | none => none
  | some state => if now - state.createdAt > SESSION_EXPIRY_MS then none else some state

/-- The operations that can touch one session's entry, for whole-trace
statements. -/
inductive Op where
  | startOp (now : Nat)
  | answerOp (a : String)
  | generateOp
  | exportOp
  | sweepOp (now : Nat)

/-- Effect of one operation on the stored entry (`generateSoul` and
`exportSoul` never mutate). -/
def applyOp : Op → Option SoulState → Option SoulState
  | .startOp now, s => (startSoulBuilder s now).2
  | .answerOp a, s => (answerQuestion s a).2
  | .generateOp, s => s
  | .exportOp, s => s
  | .sweepOp now, s => sweepOne now s

/-- Effect of a sequence of operations. -/
def applyOps (ops : List Op) (s : Option SoulState) : Option SoulState :=
  ops.foldl (fun t op => applyOp op t) s

/-- The step invariant: every stored session has `1 ≤ step ≤ TOTAL_STEPS + 1`. -/
def StepInv (s : Option SoulState) : Prop :=
  ∀ st, s = some st → 1 ≤ st.step ∧ st.step ≤ TOTAL_STEPS + 1

/-- Does `sub` occur as a contiguous run inside `hay`?  Executable substring
test used to state "the message reports the count". -/
def occursInList (sub : List Char) : List Char → Bool
  | [] => sub.isEmpty
  | c :: cs => sub.isPrefixOf (c :: cs) || occursInList sub cs

/-- Substring occurrence on strings. -/
def occursIn (sub hay : String) : Bool := occursInList sub.data hay.data

/- ### Helper lemmas -/

theorem strAppend_data (a b : String) : (a ++ b).data = a.data ++ b.data := by
  cases a
  cases b
  rfl

theorem strAppend_assoc (a b c : String) : a ++ b ++ c = a ++ (b ++ c) := by
  cases a
  cases b
  cases c
  show String.mk _ = String.mk _
  simp [String.append, List.append_assoc]

theorem isPrefixOf_self_append (l t : List Char) : l.isPrefixOf (l ++ t) = true := by
  induction l with
  | nil => simp [List.isPrefixOf]
  | cons c cs ih => simp [List.isPrefixOf, ih]

theorem occursInList_of_isPrefixOf {sub hay : List Char}
    (h : sub.isPrefixOf hay = true) : occursInList sub hay = true := by
  cases hay with
  | nil =>
    cases sub with
    | nil => rfl
    | cons c cs => simp [List.isPrefixOf] at h
  | cons c cs => simp [occursInList, h]

theorem occursInList_append (sub pre post : List Char) :
    occursInList sub (pre ++ (sub ++ post)) = true := by
  induction pre with
  | nil => exact occursInList_of_isPrefixOf (isPrefixOf_self_append sub post)
  | cons c cs ih => simp [occursInList, ih]

theorem occursIn_append (sub pre post : String) :
    occursIn sub (pre ++ (sub ++ post)) = true := by
  unfold occursIn
  rw [strAppend_data, strAppend_data]
  exact occursInList_append sub.data pre.data post.data

theorem Answers.get_set_ne (a : Answers) (f g : Field) (v : String) (h : f ≠ g) :
    (a.set g v).get f = a.get f := by
  cases f <;> cases g <;> simp_all [Answers.set, Answers.get]

theorem afterStore_snd (st : SoulState) :
    (afterStore st).2 = some { st with step := st.step + 1 } := by
  unfold afterStore
  dsimp only
  split
  · rfl
  · split <;> rfl

/-- Every call of `answerQuestion` on an existing session either leaves the
entry untouched or advances the step by one while writing one answer slot. -/
theorem answerQuestion_snd (st : SoulState) (a : String) :
    (answerQuestion (some st) a).2 = some st ∨
    (st.step ≤ TOTAL_STEPS ∧ ∃ q v, SOUL_QUESTIONS[st.step - 1]? = some q ∧
      (answerQuestion (some st) a).2 =
        some { st with step := st.step + 1, answers := st.answers.set q.field v }) := by
  by_cases hstep : st.step > TOTAL_STEPS
  · left
    simp [answerQuestion, hstep]
  · rcases hget : SOUL_QUESTIONS[st.step - 1]? with _ | q
    · left
      simp [answerQuestion, hstep, hget]
    · by_cases hskip : (q.optional && (jsToLower (jsTrim a) == "skip")) = true
      · right
        refine ⟨Nat.le_of_not_lt hstep, q, "", rfl, ?_⟩
        simp [answerQuestion, hstep, hget, hskip, afterStore_snd]
      · by_cases hempty : ((jsTrim a == "") && !q.optional) = true
        · left
          simp [answerQuestion, hstep, hget, hskip, hempty]
        · right
          refine ⟨Nat.le_of_not_lt hstep, q, jsTrim a, rfl, ?_⟩
          simp [answerQuestion, hstep, hget, hskip, hempty, afterStore_snd]

/-- C1: submitting an answer whose trim is empty to a required question
(session awaiting step `≤ TOTAL_STEPS`) returns a VALIDATION_REQUIRED
failure (`success = false`) whose message re-reports the same question and
carries the unchanged step, and the stored session is left completely
unchanged. -/
theorem required_empty_answer_rejected (st : SoulState) (a : String) (q : SoulQuestion)
    (hstep : st.step ≤ TOTAL_STEPS)
    (hq : SOUL_QUESTIONS[st.step - 1]? = some q)
    (hreq : q.optional = false)
    (hempty : jsTrim a = "") :
    answerQuestion (some st) a =
      ({ success := false,
         message := "Diese Frage ist erforderlich. Bitte beantworte: " ++ q.question,
         currentStep := some st.step,
         totalSteps := some TOTAL_STEPS }, some st) := by
  simp [answerQuestion, Nat.not_lt.mpr hstep, hq, hreq, hempty]

theorem required_empty_answer_rejected_witness :
    answerQuestion (some { step := 1, answers := {}, createdAt := 0 }) "  " =
      ({ success := false,
         message := "Diese Frage ist erforderlich. Bitte beantworte: " ++ "Wie soll dein Agent heißen?",
         currentStep := some 1,
         totalSteps := some TOTAL_STEPS }, some { step := 1, answers := {}, createdAt := 0 }) :=
  required_empty_answer_rejected { step := 1, answers := {}, createdAt := 0 } "  "
    { step := 1, field := Field.name, question := "Wie soll dein Agent heißen?", optional := false }
    (by decide) (by decide) (by decide) (by decide)

/-- C8: once the session is complete (`step > TOTAL_STEPS`), a further
`answerQuestion` call returns an informational success (`success = true`,
`isComplete = true`, message pointing at `generate_soul`) and leaves the
stored session untouched. -/
theorem answer_after_complete_informational (st : SoulState) (a : String)
    (h : st.step > TOTAL_STEPS) :
    answerQuestion (some st) a =
      ({ success := true,
         message := "Alle Fragen beantwortet! Nutze generate_soul um dein SOUL.md zu erstellen.",
         isComplete := some true,
         currentStep := some st.step,
         totalSteps := some TOTAL_STEPS }, some st) := by
  simp [answerQuestion, h]

theorem answer_after_complete_informational_witness :
    answerQuestion (some { step := 7, answers := {}, createdAt := 0 }) "more" =
      ({ success := true,
         message := "Alle Fragen beantwortet! Nutze generate_soul um dein SOUL.md zu erstellen.",
         isComplete := some true,
         currentStep := some 7,
         totalSteps := some TOTAL_STEPS }, some { step := 7, answers := {}, createdAt := 0 }) :=
  answer_after_complete_informational { step := 7, answers := {}, createdAt := 0 } "more"
    (by decide)

/-- C10: `startSoulBuilder` on an already-complete session (`step =
TOTAL_STEPS + 1`) reports `success = true`, `isComplete = true`, the
current step `TOTAL_STEPS + 1` and no next question, and returns the
session unchanged. -/
theorem start_on_complete_session (st : SoulState) (now : Nat)
    (h : st.step = TOTAL_STEPS + 1) :
    startSoulBuilder (some st) now =
      ({ success := true,
         message := "Session bereits aktiv. Wir sind bei Frage 7/6.",
         nextQuestion := none,
         currentStep := some (TOTAL_STEPS + 1),
         totalSteps := some TOTAL_STEPS,
         isComplete := some true }, some st) := by
  simp [startSoulBuilder, h]
  constructor
  · rfl
  · decide

theorem start_on_complete_session_witness :
    startSoulBuilder (some { step := 7, answers := {}, createdAt := 3 }) 50 =
      ({ success := true,
         message := "Session bereits aktiv. Wir sind bei Frage 7/6.",
         nextQuestion := none,
         currentStep := some (TOTAL_STEPS + 1),
         totalSteps := some TOTAL_STEPS,
         isComplete := some true }, some { step := 7, answers := {}, createdAt := 3 }) :=
  start_on_complete_session { step := 7, answers := {}, createdAt := 3 } 50 (by decide)

/-- C2: the skip branch is taken exactly for optional questions whose
trimmed answer lowercases to "skip": then the empty string is stored and
the step advances.  For a required question the sentinel has no special
meaning: any non-empty trimmed answer — in particular the literal "skip" —
is stored verbatim (trimmed) and the step advances; an optional question
with any other non-matching answer likewise stores the trimmed literal. -/
theorem skip_sentinel_semantics (st : SoulState) (a : String) (q : SoulQuestion)
    (hstep : st.step ≤ TOTAL_STEPS)
    (hq : SOUL_QUESTIONS[st.step - 1]? = some q) :
    ((q.optional = true ∧ jsToLower (jsTrim a) = "skip") →
      (answerQuestion (some st) a).2 =
        some { st with step := st.step + 1, answers := st.answers.set q.field "" })
    ∧ ((q.optional = false ∧ jsTrim a = "skip") →
      "skip" ≠ "" ∧
      (answerQuestion (some st) a).2 =
        some { st with step := st.step + 1, answers := st.answers.set q.field "skip" })
    ∧ ((q.optional = true ∧ jsToLower (jsTrim a) ≠ "skip") →
      (answerQuestion (some st) a).2 =
        some { st with step := st.step + 1, answers := st.answers.set q.field (jsTrim a) }) := by
  refine ⟨?_, ?_, ?_⟩
  · rintro ⟨hopt, hskip⟩
    simp [answerQuestion, Nat.not_lt.mpr hstep, hq, hopt, hskip, afterStore_snd]
  · rintro ⟨hopt, hskip⟩
    refine ⟨by decide, ?_⟩
    have hne : jsTrim a ≠ "" := by
      rw [hskip]
      decide
    simp [answerQuestion, Nat.not_lt.mpr hstep, hq, hopt, hskip, hne, afterStore_snd]
  · rintro ⟨hopt, hskip⟩
    simp [answerQuestion, Nat.not_lt.mpr hstep, hq, hopt, hskip, afterStore_snd]

theorem skip_sentinel_semantics_witness :
    ((answerQuestion (some { step := 6, answers := {}, createdAt := 0 }) " SKIP ").2 =
      some { step := 7, answers := { signature := some "" }, createdAt := 0 }) ∧
    ((answerQuestion (some { step := 1, answers := {}, createdAt := 0 }) "skip").2 =
      some { step := 2, answers := { name := some "skip" }, createdAt := 0 }) :=
  ⟨((skip_sentinel_semantics { step := 6, answers := {}, createdAt := 0 } " SKIP "
      { step := 6, field := Field.signature,
        question := "Ein typischer Erkennungs-Satz deines Agenten? (oder \"skip\" zum Überspringen)",
        optional := true }
      (by decide) (by decide)).1 (by decide)),
   (((skip_sentinel_semantics { step := 1, answers := {}, createdAt := 0 } "skip"
      { step := 1, field := Field.name, question := "Wie soll dein Agent heißen?", optional := false }
      (by decide) (by decide)).2.1 (by decide)).2)⟩

/-- C5: `startSoulBuilder` is idempotent.  On an existing session it
returns the entry unchanged and reports that session's current step and
in-progress question; only on a missing entry does it create a fresh
session at step 1 with empty answers, reporting question 1. -/
theorem start_idempotent (s : Option SoulState) (now : Nat) :
    (∀ st, s = some st →
      (startSoulBuilder s now).2 = some st ∧
      (startSoulBuilder s now).1.success = true ∧
      (startSoulBuilder s now).1.currentStep = some st.step ∧
      (startSoulBuilder s now).1.nextQuestion =
        (SOUL_QUESTIONS[st.step - 1]?).map SoulQuestion.question) ∧
    (s = none →
      (startSoulBuilder s now).2 = some { step := 1, answers := {}, createdAt := now } ∧
      (startSoulBuilder s now).1.success = true ∧
      (startSoulBuilder s now).1.currentStep = some 1 ∧
      (startSoulBuilder s now).1.nextQuestion = some "Wie soll dein Agent heißen?") := by
  constructor
  · rintro st rfl
    simp [startSoulBuilder]
  · rintro rfl
    exact ⟨rfl, rfl, rfl, rfl⟩

theorem start_idempotent_witness :
    (startSoulBuilder (some { step := 3, answers := { name := some "Aria" }, createdAt := 9 }) 99).2 =
      some { step := 3, answers := { name := some "Aria" }, createdAt := 9 } ∧
    (startSoulBuilder (some { step := 3, answers := { name := some "Aria" }, createdAt := 9 }) 99).1.nextQuestion =
      (SOUL_QUESTIONS[(3 : Nat) - 1]?).map SoulQuestion.question ∧
    (startSoulBuilder none 7).2 = some { step := 1, answers := {}, createdAt := 7 } :=
  ⟨((start_idempotent (some { step := 3, answers := { name := some "Aria" }, createdAt := 9 }) 99).1
      { step := 3, answers := { name := some "Aria" }, createdAt := 9 } rfl).1,
   ((start_idempotent (some { step := 3, answers := { name := some "Aria" }, createdAt := 9 }) 99).1
      { step := 3, answers := { name := some "Aria" }, createdAt := 9 } rfl).2.2.2,
   ((start_idempotent none 7).2 rfl).1⟩

/-- C6: the rendered document carries a signature section: the stored
signature text when it is non-empty, and the fixed placeholder
"*Keine Signatur definiert*" when the stored signature is the empty string
(skipped or answered empty) — never an empty section. -/
theorem render_signature_section (a : Answers) (s : String) (h : a.signature = some s) :
    (s ≠ "" → ∃ pre post, generateSoulMd a = pre ++ ("## Signature\n" ++ s) ++ post) ∧
    (s = "" → ∃ pre post,
      generateSoulMd a = pre ++ "## Signature\n*Keine Signatur definiert*" ++ post) := by
  constructor
  · intro hne
    refine ⟨"# SOUL.md — " ++ jsStr a.name ++ "\n\n## Identity\n**Name:** " ++ jsStr a.name
        ++ "\n**Personality:** " ++ jsStr a.personality
        ++ "\n**Core Values:** " ++ jsStr a.coreValues
        ++ "\n\n## Communication Style\n**Tone:** " ++ jsStr a.tone
        ++ "\n\n## Backstory\n" ++ jsStr a.backstory ++ "\n\n",
      "\n\n---\n*Generated by Soul Builder — ag3nt.id*\n*Give your agent an identity.*\n", ?_⟩
    have ht : truthy (some s) = true := by
      simpa [truthy] using hne
    simp [generateSoulMd, h, ht, jsStr]
  · intro he
    refine ⟨"# SOUL.md — " ++ jsStr a.name ++ "\n\n## Identity\n**Name:** " ++ jsStr a.name
        ++ "\n**Personality:** " ++ jsStr a.personality
        ++ "\n**Core Values:** " ++ jsStr a.coreValues
        ++ "\n\n## Communication Style\n**Tone:** " ++ jsStr a.tone
        ++ "\n\n## Backstory\n" ++ jsStr a.backstory ++ "\n\n",
      "\n\n---\n*Generated by Soul Builder — ag3nt.id*\n*Give your agent an identity.*\n", ?_⟩
    subst he
    simp [generateSoulMd, h, truthy]

theorem render_signature_section_witness :
    (∃ pre post,
      generateSoulMd { signature := some "Stets zu Diensten!" } =
        pre ++ ("## Signature\n" ++ "Stets zu Diensten!") ++ post) ∧
    (∃ pre post,
      generateSoulMd { signature := some "" } =
        pre ++ "## Signature\n*Keine Signatur definiert*" ++ post) :=
  ⟨(render_signature_section { signature := some "Stets zu Diensten!" } "Stets zu Diensten!"
      rfl).1 (by decide),
   (render_signature_section { signature := some "" } "" rfl).2 rfl⟩

/-- C7: rendering is pure and deterministic, and generate/export agree on
the document: on a complete session both succeed and return the same
rendered text, and neither mutates the store, so export does not depend on
generate having run first. -/
theorem generate_export_render_agree (st : SoulState) (h : TOTAL_STEPS < st.step) :
    (generateSoul (some st)).success = true ∧
    (exportSoul (some st)).success = true ∧
    (generateSoul (some st)).soulMd = some (generateSoulMd st.answers) ∧
    (exportSoul (some st)).soulMd = some (generateSoulMd st.answers) ∧
    (∀ a b : Answers, a = b → generateSoulMd a = generateSoulMd b) ∧
    (∀ t, applyOp Op.generateOp t = t ∧ applyOp Op.exportOp t = t) := by
  have hn : ¬ st.step ≤ TOTAL_STEPS := Nat.not_le.mpr h
  refine ⟨?_, ?_, ?_, ?_, ?_, ?_⟩
  · simp [generateSoul, hn]
  · simp [exportSoul, hn]
  · simp [generateSoul, hn]
  · simp [exportSoul, hn]
  · intro a b hab
    rw [hab]
  · intro t
    exact ⟨rfl, rfl⟩

theorem generate_export_render_agree_witness :
    (generateSoul (some { step := 7, answers := { signature := some "" }, createdAt := 0 })).soulMd =
      some (generateSoulMd { signature := some "" }) ∧
    (exportSoul (some { step := 7, answers := { signature := some "" }, createdAt := 0 })).soulMd =
      some (generateSoulMd { signature := some "" }) :=
  ⟨(generate_export_render_agree { step := 7, answers := { signature := some "" }, createdAt := 0 }
      (by decide)).2.2.1,
   (generate_export_render_agree { step := 7, answers := { signature := some "" }, createdAt := 0 }
      (by decide)).2.2.2.1⟩

/-- `startSoulBuilder` returns an existing entry unchanged. -/
theorem startSoulBuilder_snd_some (st : SoulState) (now : Nat) :
    (startSoulBuilder (some st) now).2 = some st := rfl

/-- `sweepOne` either keeps the entry intact or removes it. -/
theorem sweepOne_cases (now : Nat) (st : SoulState) :
    sweepOne now (some st) = some st ∨ sweepOne now (some st) = none := by
  by_cases h : now - st.createdAt > SESSION_EXPIRY_MS
  · right
    simp [sweepOne, h]
  · left
    simp [sweepOne, h]

/-- Any operation that leaves the entry present preserves `createdAt`. -/
theorem applyOp_createdAt (op : Op) (t t' : SoulState)
    (h : applyOp op (some t) = some t') : t'.createdAt = t.createdAt := by
  cases op with
  | startOp now =>
    rw [applyOp, startSoulBuilder_snd_some] at h
    cases h
    rfl
  | answerOp a =>
    rcases answerQuestion_snd t a with h2 | ⟨_, q, v, _, h2⟩ <;>
      rw [applyOp, h2] at h <;> cases h <;> rfl
  | generateOp =>
    cases h
    rfl
  | exportOp =>
    cases h
    rfl
  | sweepOp now =>
    rcases sweepOne_cases now t with h2 | h2 <;> rw [applyOp, h2] at h
    · cases h
      rfl
    · cases h

/-- C9: a `submitAnswer` call that leaves the session stored can only have
changed the step and the answer slot of the question it was at: every
other answer slot and `createdAt` are untouched, hence the expiry test
`now - createdAt > SESSION_EXPIRY_MS` gives the same verdict before and
after; moreover no operation whatsoever rewrites `createdAt` of a stored
session. -/
theorem answer_frame_effect (st : SoulState) (a : String) (q : SoulQuestion)
    (hq : SOUL_QUESTIONS[st.step - 1]? = some q) :
    (∀ st', (answerQuestion (some st) a).2 = some st' →
      st'.createdAt = st.createdAt ∧
      (∀ f, f ≠ q.field → st'.answers.get f = st.answers.get f) ∧
      (∀ now, now - st'.createdAt > SESSION_EXPIRY_MS ↔ now - st.createdAt > SESSION_EXPIRY_MS)) ∧
    (∀ op t t', applyOp op (some t) = some t' → t'.createdAt = t.createdAt) := by
  constructor
  · intro st' h
    rcases answerQuestion_snd st a with h2 | ⟨_, q2, v, hq2, h2⟩
    · rw [h2] at h
      cases h
      exact ⟨rfl, fun f _ => rfl, fun now => Iff.rfl⟩
    · rw [hq] at hq2
      cases hq2
      rw [h2] at h
      cases h
      refine ⟨rfl, ?_, fun now => Iff.rfl⟩
      intro f hf
      exact Answers.get_set_ne st.answers f q.field v hf
  · exact applyOp_createdAt

theorem answer_frame_effect_witness :
    (SoulState.createdAt
        { step := 3, answers := { name := some "Aria", personality := some "warm" }, createdAt := 44 } =
      SoulState.createdAt { step := 2, answers := { name := some "Aria" }, createdAt := 44 }) ∧
    (∀ f, f ≠ Field.personality →
      (Answers.get { name := some "Aria", personality := some "warm" } f) =
        (Answers.get { name := some "Aria" } f)) ∧
    (∀ now, now - SoulState.createdAt
        { step := 3, answers := { name := some "Aria", personality := some "warm" }, createdAt := 44 } >
          SESSION_EXPIRY_MS ↔
      now - SoulState.createdAt { step := 2, answers := { name := some "Aria" }, createdAt := 44 } >
        SESSION_EXPIRY_MS) :=
  (answer_frame_effect { step := 2, answers := { name := some "Aria" }, createdAt := 44 } "warm"
    { step := 2, field := Field.personality,
      question := "Beschreibe die Persönlichkeit in 3 Adjektiven (z.B. warm, direkt, neugierig)",
      optional := false }
    (by decide)).1
    { step := 3, answers := { name := some "Aria", personality := some "warm" }, createdAt := 44 }
    (by decide)

/-- Every operation preserves the step invariant of the stored entry. -/
theorem stepInv_applyOp (op : Op) (s : Option SoulState) (h : StepInv s) :
    StepInv (applyOp op s) := by
  cases op with
  | startOp now =>
    cases s with
    | none =>
      intro st hst
      cases hst
      refine ⟨Nat.le_refl 1, ?_⟩
      show 1 ≤ TOTAL_STEPS + 1
      decide
    | some t =>
      rw [applyOp, startSoulBuilder_snd_some]
      exact h
  | answerOp a =>
    cases s with
    | none =>
      intro st hst
      cases hst
    | some t =>
      intro st hst
      rcases answerQuestion_snd t a with h2 | ⟨hle, q, v, _, h2⟩ <;>
        rw [applyOp, h2] at hst <;> cases hst
      · exact h t rfl
      · exact ⟨Nat.le_succ_of_le (h t rfl).1, Nat.succ_le_succ hle⟩
  | generateOp => exact h
  | exportOp => exact h
  | sweepOp now =>
    cases s with
    | none =>
      intro st hst
      cases hst
    | some t =>
      rcases sweepOne_cases now t with h2 | h2 <;> rw [applyOp, h2]
      · exact h
      · intro st hst
        cases hst

/-- C4: a fresh session starts at step 1; along any sequence of operations
every stored session keeps `1 ≤ step ≤ TOTAL_STEPS + 1`; and any single
operation that keeps the session stored either leaves the step unchanged
or advances it by exactly one, the latter only from a step that still had
a question (`step ≤ TOTAL_STEPS`) — so the step never decreases, never
skips, and never passes `TOTAL_STEPS + 1`. -/
theorem step_monotone_invariant (ops : List Op) (s : Option SoulState) (h : StepInv s) :
    StepInv (applyOps ops s) ∧
    (∀ now, (startSoulBuilder none now).2 = some { step := 1, answers := {}, createdAt := now }) ∧
    (∀ op t t', applyOp op (some t) = some t' →
      t'.step = t.step ∨ (t.step ≤ TOTAL_STEPS ∧ t'.step = t.step + 1)) := by
  refine ⟨?_, fun now => rfl, ?_⟩
  · induction ops generalizing s with
    | nil => exact h
    | cons op rest ih =>
      have : applyOps (op :: rest) s = applyOps rest (applyOp op s) := rfl
      rw [this]
      exact ih (applyOp op s) (stepInv_applyOp op s h)
  · intro op t t' hop
    cases op with
    | startOp now =>
      rw [applyOp, startSoulBuilder_snd_some] at hop
      cases hop
      exact Or.inl rfl
    | answerOp a =>
      rcases answerQuestion_snd t a with h2 | ⟨hle, q, v, _, h2⟩ <;>
        rw [applyOp, h2] at hop <;> cases hop
      · exact Or.inl rfl
      · exact Or.inr ⟨hle, rfl⟩
    | generateOp =>
      cases hop
      exact Or.inl rfl
    | exportOp =>
      cases hop
      exact Or.inl rfl
    | sweepOp now =>
      rcases sweepOne_cases now t with h2 | h2 <;> rw [applyOp, h2] at hop <;> cases hop
      exact Or.inl rfl

theorem step_monotone_invariant_witness :
    StepInv (applyOps
      [Op.startOp 0, Op.answerOp "Aria", Op.answerOp "warm", Op.generateOp, Op.sweepOp 10]
      none) :=
  (step_monotone_invariant
    [Op.startOp 0, Op.answerOp "Aria", Op.answerOp "warm", Op.generateOp, Op.sweepOp 10]
    none (fun st hst => by cases hst)).1

/-- C3 counterexample: for the session at step 1 (six questions remaining)
`exportSoul` does fail, but its failure message does not contain the
remaining-question count "6" anywhere, so the claim that *both* generate
and export report the exact count is false. -/
theorem export_not_complete_lacks_count :
    (exportSoul (some { step := 1, answers := {}, createdAt := 0 })).success = false ∧
    occursIn (toString (TOTAL_STEPS - 1 + 1))
      (exportSoul (some { step := 1, answers := {}, createdAt := 0 })).message = false := by
  decide

/-- C3 (amended): with `currentStep ≤ TOTAL_STEPS`, generate and export
both return a NOT_COMPLETE failure (`success = false`) without rendering a
document; generate's failure message reports the exact count
`TOTAL_STEPS - currentStep + 1` of remaining questions, while export's
failure message is a fixed text that does not include the count. -/
theorem generate_export_not_complete (st : SoulState) (h : st.step ≤ TOTAL_STEPS) :
    (generateSoul (some st)).success = false ∧
    (generateSoul (some st)).soulMd = none ∧
    occursIn (toString (TOTAL_STEPS - st.step + 1)) (generateSoul (some st)).message = true ∧
    (exportSoul (some st)).success = false ∧
    (exportSoul (some st)).soulMd = none ∧
    (exportSoul (some st)).message =
      "Soul noch nicht vollständig. Bitte beantworte alle Fragen und nutze generate_soul." := by
  have hmsg : (generateSoul (some st)).message =
      "Noch " ++ (toString (TOTAL_STEPS - st.step + 1) ++
        " Frage(n) offen. Bitte beantworte alle Fragen zuerst.") := by
    simp [generateSoul, h, strAppend_assoc]
    rfl
  refine ⟨?_, ?_, ?_, ?_, ?_, ?_⟩
  · simp [generateSoul, h]
  · simp [generateSoul, h]
  · rw [hmsg]
    exact occursIn_append _ _ _
  · simp [exportSoul, h]
  · simp [exportSoul, h]
  · simp [exportSoul, h]

theorem generate_export_not_complete_witness :
    occursIn (toString (TOTAL_STEPS - 4 + 1))
      (generateSoul (some { step := 4, answers := {}, createdAt := 0 })).message = true ∧
    (exportSoul (some { step := 4, answers := {}, createdAt := 0 })).success = false :=
  ⟨(generate_export_not_complete { step := 4, answers := {}, createdAt := 0 } (by decide)).2.2.1,
   (generate_export_not_complete { step := 4, answers := {}, createdAt := 0 } (by decide)).2.2.2.1⟩

end SoulBuilder
